import Mathlib

/-!
Shallow embedding of the submariner game backend (Chronojam/submariner):
the entity-component world registry (server/pkg/world/world.go with the
component constants of its components package) and the HTTP/websocket
session, connection and broadcast layer (the server package: Server struct,
createGame/joinGame, the CreateGame/JoinGame HTTP handlers,
marshalBodyToRequest, NewClient, ReadIncomingMessages,
ValidateAndApplyState and BeginUpdatePush).

Go slices are Lean lists; Go maps are association lists; the nondeterministic
pieces of a request (method, whether the body read succeeds, whether the JSON
decodes, the freshly minted uuid, whether a websocket write succeeds) are
explicit parameters.  Each endpoint/loop body is a pure state-passing
function over the Server state.
-/

namespace Submariner

/-! ## Component constants

From the components package used by server/pkg/world/world.go:
UNKNOWN, NAME, POSITION are declared with successive left shifts of 1,
so UNKNOWN = 1, NAME = 2, POSITION = 4 (each constant is itself a bit flag).
-/

def UNKNOWN : Nat := 1
def NAME : Nat := 2
def POSITION : Nat := 4

/-- Component variants of the components package: Name is the only concrete
component; its Type() is the NAME flag. -/
inductive Component where
  | name (v : String)
deriving DecidableEq, Repr

def Component.compType : Component → Nat
  | .name _ => NAME

/-- Go's AND-NOT (a &^ b): clear from a every bit set in b.  Since
a &&& b only has bits of a, subtracting it clears exactly those bits. -/
def andNot (a b : Nat) : Nat := a - (a &&& b)

/-! ## The world registry (server/pkg/world/world.go) -/

/-- World state: parallel arrays cNames (component values for NAME) and
cFlags (per-entity presence bitmasks), as in the world struct. -/
structure World where
  cNames : List String
  cFlags : List Nat
deriving DecidableEq, Repr

def World.new : World := { cNames := [], cFlags := [] }

/-- AddEntity appends an empty name and a zero mask and returns
len(cFlags) - 1 computed after the appends. -/
def World.AddEntity (w : World) : World × Nat :=
  let w' : World := { cNames := w.cNames ++ [""], cFlags := w.cFlags ++ [0] }
  (w', w'.cFlags.length - 1)

/-- AddComponent writes the component value into its array at eid and ORs
the component's Type() flag into cFlags[eid]. -/
def World.AddComponent (w : World) (eid : Nat) (comp : Component) : World :=
  let cNames := match comp with
    | .name v => w.cNames.set eid v
  { cNames := cNames,
    cFlags := w.cFlags.set eid ((w.cFlags.getD eid 0) ||| comp.compType) }

/-- RemoveComponent: for cid = NAME it splices the eid-th entry out of
cNames (the source's switch, with its special case when len(cNames) == eid),
then AND-NOTs cid out of cFlags[eid]. -/
def World.RemoveComponent (w : World) (eid cid : Nat) : World :=
  let cNames :=
    if cid = NAME then
      if w.cNames.length = eid then
        w.cNames.take eid
      else
        w.cNames.take eid ++ w.cNames.drop (eid + 1)
    else w.cNames
  { cNames := cNames,
    cFlags := w.cFlags.set eid (andNot (w.cFlags.getD eid 0) cid) }

/-- FindAllEntitiesByComponentType: linear scan keeping every index i with
uint(cFlags[i]) & (1 << uint(cid) - 1) != 0, i.e. mask & (2^cid - 1) != 0. -/
def World.FindAllEntitiesByComponentType (w : World) (cid : Nat) : List Nat :=
  (List.range w.cFlags.length).filter
    (fun i => (w.cFlags.getD i 0) &&& ((1 <<< cid) - 1) != 0)

/-! ## Game state (server/pkg/game/state.go) -/

/-- PlayerCondition constants: ALIVE, DOWN, DEAD declared with successive
left shifts of 1, so 1, 2, 4. -/
def ALIVE : Nat := 1
def DOWN : Nat := 2
def DEAD : Nat := 4

/-- PlayerState: x, y coordinates and the condition field (named State in
the source, a PlayerCondition integer). -/
structure PlayerState where
  x : Int
  y : Int
  state : Nat
deriving DecidableEq, Repr

/-- The zero value game.PlayerState{} allocated by joinGame and NewClient. -/
def PlayerState.zero : PlayerState := { x := 0, y := 0, state := 0 }

/-- GameState is an empty struct in the source. -/
structure GameState where
deriving DecidableEq, Repr

/-- GameMode: its Players field is the ordered list of player-slot indices
belonging to the game. -/
structure GameMode where
  Players : List Nat
deriving DecidableEq, Repr

/-! ## Server state and registry operations (the server package) -/

/-- Server: the session map (token to slot index), the parallel
connections/playerStates slices and the parallel gameStates/gameModes
slices.  A connection slot is true when a live socket is bound, false for
the nil pointer. -/
structure ServerState where
  sessions : List (String × Nat)
  connections : List Bool
  playerStates : List PlayerState
  gameStates : List GameState
  gameModes : List GameMode
deriving DecidableEq, Repr

/-- New(config): every slice empty, the session map empty. -/
def ServerState.new : ServerState :=
  { sessions := [], connections := [], playerStates := [],
    gameStates := [], gameModes := [] }

/-- Go map read with ok-flag on the sessions association list. -/
def findSession : List (String × Nat) → String → Option Nat
  | [], _ => none
  | (k, v) :: rest, tok => if k = tok then some v else findSession rest tok

/-- createGame: appends an empty GameMode and GameState pair and returns
the new pair's index in the response. -/
def createGame (s : ServerState) : ServerState × Nat :=
  let s' := { s with gameModes := s.gameModes ++ [{ Players := [] }],
                     gameStates := s.gameStates ++ [{}] }
  (s', s'.gameModes.length - 1)

/-- joinGame: appends a zero PlayerState and a nil connection, appends the
new slot index to gameModes[gameID].Players, and returns the fresh uuid
token (passed in, since uuid.New() is nondeterministic).  Note: the
sessions map is not written. -/
def joinGame (s : ServerState) (gameID : Nat) (freshTok : String) :
    ServerState × String :=
  let ps := s.playerStates ++ [PlayerState.zero]
  let cs := s.connections ++ [false]
  let ID := ps.length - 1
  let gms := s.gameModes.set gameID
    { Players := (s.gameModes.getD gameID { Players := [] }).Players ++ [ID] }
  ({ s with playerStates := ps, connections := cs, gameModes := gms },
   freshTok)

/-- marshalBodyToRequest: nil body or non-POST method is a bad request;
then a body read failure is an internal error; then a JSON unmarshal
failure is a bad request.  Returns the error message, none on success. -/
def marshalBodyToRequest (bodyNil : Bool) (method : String)
    (bodyReadOk jsonOk : Bool) : Option String :=
  if bodyNil || method ≠ "POST" then some "Bad Request."
  else if !bodyReadOk then some "Internal Server Error."
  else if !jsonOk then some "Bad request; Improper JSON."
  else none

/-- CreateGame HTTP handler: OPTIONS returns immediately (200); any
marshalBodyToRequest error is written with status 500 and the plain error
text as body; otherwise createGame runs and the JSON response is written
with the default 200 status. -/
def CreateGame (s : ServerState) (method : String)
    (bodyNil bodyReadOk jsonOk : Bool) : ServerState × Nat × String :=
  if method = "OPTIONS" then (s, 200, "")
  else
    match marshalBodyToRequest bodyNil method bodyReadOk jsonOk with
    | some e => (s, 500, e)
    | none =>
      let r := createGame s
      (r.1, 200, "gameid response")

structure JoinGameRequest where
  Username : String
  GameID : Int
deriving DecidableEq, Repr

structure JoinGameResponse where
  Token : String
  Error : String
deriving DecidableEq, Repr

/-- Outcome of reading and decoding a JoinGame request body. -/
inductive JoinBody where
  | readErr
  | badJSON
  | ok (req : JoinGameRequest)
deriving DecidableEq, Repr

/-- JoinGame HTTP handler.  OPTIONS returns immediately.  A body read
failure is 500; a JSON decode failure is 400; a GameID above
len(gameStates)-1 or below 0 is 400 "Invalid GameID"; an empty Username is
400 "Invalid Username"; otherwise joinGame runs and the token is set as
the SessionID cookie (last component), with the handler's own (empty)
response marshalled as body and the default 200 status. -/
def JoinGame (s : ServerState) (method : String) (b : JoinBody)
    (freshTok : String) :
    ServerState × Nat × JoinGameResponse × Option String :=
  if method = "OPTIONS" then (s, 200, { Token := "", Error := "" }, none)
  else
    match b with
    | .readErr => (s, 500, { Token := "", Error := "Internal Server Error" }, none)
    | .badJSON =>
      (s, 400,
       { Token := "",
         Error := "Incorrect Input for Username or GameID; Expected: Username(string); GameID(int);" },
       none)
    | .ok req =>
      if req.GameID > (s.gameStates.length : Int) - 1 ∨ req.GameID < 0 then
        (s, 400, { Token := "", Error := "Invalid GameID" }, none)
      else if req.Username = "" then
        (s, 400, { Token := "", Error := "Invalid Username" }, none)
      else
        let r := joinGame s req.GameID.toNat freshTok
        (r.1, 200, { Token := "", Error := "" }, some r.2)

/-- Outcome of the websocket connect handler. -/
inductive ConnectOutcome where
  | forbidden
  | upgradeFailed
  | bound (id : Nat)
deriving DecidableEq, Repr

/-- NewClient: 403 when the SessionID cookie is missing or its token is not
in the sessions map; on a successful upgrade, binds the socket at the
mapped slot and overwrites that slot's PlayerState with a fresh zero
value. -/
def NewClient (s : ServerState) (cookie : Option String) (upgradeOk : Bool) :
    ServerState × ConnectOutcome :=
  match cookie with
  | none => (s, .forbidden)
  | some tok =>
    match findSession s.sessions tok with
    | none => (s, .forbidden)
    | some id =>
      if upgradeOk then
        ({ s with connections := s.connections.set id true,
                  playerStates := s.playerStates.set id PlayerState.zero },
         .bound id)
      else (s, .upgradeFailed)

/-- ValidateAndApplyState: the reference implementation returns nil and
leaves the server state untouched. -/
def ValidateAndApplyState (s : ServerState) (proposed : PlayerState)
    (index : Nat) : ServerState × Option String :=
  (s, none)

/-- One inbound event on a connection's read loop. -/
inductive ReadEvent where
  | readErr
  | badJSON
  | proposal (p : PlayerState)
deriving DecidableEq, Repr

/-- One iteration of ReadIncomingMessages for the connection bound to
stateIndex: a read error is logged and the loop continues; a JSON decode
failure is logged and the loop continues; a decoded proposal is passed to
ValidateAndApplyState and the loop continues.  The boolean is true when
the loop keeps running after the iteration (every branch of the source
iteration ends in continue). -/
def readLoopStep (s : ServerState) (stateIndex : Nat) (ev : ReadEvent) :
    ServerState × Bool :=
  match ev with
  | .readErr => (s, true)
  | .badJSON => (s, true)
  | .proposal p => ((ValidateAndApplyState s p stateIndex).1, true)

/-! ## The broadcast loop (BeginUpdatePush), one tick -/

/-- A JSON frame pushed to a client: a PlayerState or a GameState. -/
inductive Frame where
  | player (ps : PlayerState)
  | game (gs : GameState)
deriving DecidableEq, Repr

/-- Write oracle: whether WriteJSON succeeds, per game index, slot index
and frame number (0 = the PlayerState frame, 1 = the GameState frame). -/
abbrev WriteOk : Type := Nat → Nat → Nat → Bool

/-- The body of the inner loop for game i, slot j: a nil connection is
skipped; a failed PlayerState write is logged and skips the rest of this
player's iteration; otherwise the GameState frame is attempted the same
way.  Returns the (slot, frame) pairs actually delivered, in order. -/
def pushToPlayer (conns : List Bool) (pstates : List PlayerState)
    (gstates : List GameState) (ok : WriteOk) (i j : Nat) :
    List (Nat × Frame) :=
  if conns.getD j false = false then []
  else if ok i j 0 = false then []
  else if ok i j 1 = false then
    [(j, Frame.player (pstates.getD j PlayerState.zero))]
  else
    [(j, Frame.player (pstates.getD j PlayerState.zero)),
     (j, Frame.game (gstates.getD i {}))]

/-- The inner loop over gm.Players for game i, in order. -/
def pushPlayers (conns : List Bool) (pstates : List PlayerState)
    (gstates : List GameState) (ok : WriteOk) (i : Nat) :
    List Nat → List (Nat × Frame)
  | [] => []
  | j :: rest =>
    pushToPlayer conns pstates gstates ok i j ++
      pushPlayers conns pstates gstates ok i rest

/-- The outer loop over gameModes, carrying the running game index. -/
def pushGames (conns : List Bool) (pstates : List PlayerState)
    (gstates : List GameState) (ok : WriteOk) :
    Nat → List GameMode → List (Nat × Frame)
  | _, [] => []
  | i, gm :: rest =>
    pushPlayers conns pstates gstates ok i gm.Players ++
      pushGames conns pstates gstates ok (i + 1) rest

/-- One tick of BeginUpdatePush over the server state. -/
def BeginUpdatePushTick (s : ServerState) (ok : WriteOk) :
    List (Nat × Frame) :=
  pushGames s.connections s.playerStates s.gameStates ok 0 s.gameModes

/-- The frames a given slot receives out of a delivery trace, in order. -/
def sentTo (l : List (Nat × Frame)) (q : Nat) : List Frame :=
  l.filterMap (fun p => if p.1 = q then some p.2 else none)

/-- Number of occurrences of q in a player list. -/
def countOcc (q : Nat) : List Nat → Nat
  | [] => 0
  | j :: rest => (if j = q then 1 else 0) + countOcc q rest

/-- The frames one visit of slot q in game i delivers, as a function of
q's own write outcomes only. -/
def visitFrames (pstates : List PlayerState) (gstates : List GameState)
    (ok : WriteOk) (q i : Nat) : List Frame :=
  if ok i q 0 = false then []
  else if ok i q 1 = false then
    [Frame.player (pstates.getD q PlayerState.zero)]
  else
    [Frame.player (pstates.getD q PlayerState.zero),
     Frame.game (gstates.getD i {})]

/-- Everything slot q receives in a tick: per game in order, one
visitFrames block per occurrence of q in that game's player list. -/
def expectedTo (pstates : List PlayerState) (gstates : List GameState)
    (ok : WriteOk) (q : Nat) : Nat → List GameMode → List Frame
  | _, [] => []
  | i, gm :: rest =>
    (List.replicate (countOcc q gm.Players)
      (visitFrames pstates gstates ok q i)).flatten ++
      expectedTo pstates gstates ok q (i + 1) rest

/-! ## Operation alphabet for reachable server states -/

/-- One externally triggered operation on the server state. -/
inductive Op where
  | create (method : String) (bodyNil bodyReadOk jsonOk : Bool)
  | join (method : String) (b : JoinBody) (freshTok : String)
  | connect (cookie : Option String) (upgradeOk : Bool)
  | read (slot : Nat) (ev : ReadEvent)

/-- The state effect of one operation. -/
def runOp (s : ServerState) : Op → ServerState
  | .create m bn br jo => (CreateGame s m bn br jo).1
  | .join m b tok => (JoinGame s m b tok).1
  | .connect c u => (NewClient s c u).1
  | .read slot ev => (readLoopStep s slot ev).1

/-- Running a sequence of operations from a state. -/
def runOps (s : ServerState) : List Op → ServerState
  | [] => s
  | op :: rest => runOps (runOp s op) rest

/-! ## Concrete states used by several theorems -/

/-- The state after one successful POST /game/create on a fresh server. -/
def gameOneState : ServerState :=
  (CreateGame ServerState.new "POST" false true true).1

/-- The state after additionally joining game 0 as "bob" with minted
token "T". -/
def joinedState : ServerState :=
  (JoinGame gameOneState "POST" (.ok { Username := "bob", GameID := 0 }) "T").1

/-- A world with one entity carrying only the NAME component. -/
def w1 : World := (World.new.AddEntity).1.AddComponent 0 (.name "a")

/-- A world with two entities, both carrying the NAME component. -/
def w2 : World := ((w1.AddEntity).1.AddComponent 1 (.name "b"))

/-- joinedState with the one player slot's connection bound, as it would be
after a successful socket binding at slot 0. -/
def freshBroadcastState : ServerState := { joinedState with connections := [true] }

/-- A server state with one token in the session map and a non-zero
PlayerState stored in the mapped slot. -/
def sessionedState : ServerState :=
  { sessions := [("t", 0)], connections := [false],
    playerStates := [{ x := 3, y := 4, state := 1 }],
    gameStates := [], gameModes := [] }

/-- A two-player, one-game state for the broadcast theorems. -/
def broadcastState : ServerState :=
  { sessions := [], connections := [true, true],
    playerStates := [{ x := 5, y := 6, state := 1 }, { x := 7, y := 8, state := 2 }],
    gameStates := [{}], gameModes := [{ Players := [0, 1] }] }

/-- A write oracle under which every write to slot 0 fails and every other
write succeeds. -/
def failSlotZero : WriteOk := fun _ j _ => j != 0

/-! ## List helpers (getD over set / splice) -/

theorem getD_set_self {α : Type} (l : List α) (i : Nat) (v d : α)
    (h : i < l.length) : (l.set i v).getD i d = v := by
  induction l generalizing i with
  | nil => simp at h
  | cons a t ih =>
    cases i with
    | zero => simp [List.set, List.getD]
    | succ n =>
      simp only [List.set, List.getD_cons_succ]
      exact ih n (by simpa using h)

theorem getD_set_ne {α : Type} (l : List α) (i j : Nat) (v d : α)
    (h : i ≠ j) : (l.set i v).getD j d = l.getD j d := by
  induction l generalizing i j with
  | nil => simp [List.set]
  | cons a t ih =>
    cases i with
    | zero =>
      cases j with
      | zero => exact absurd rfl h
      | succ m => simp [List.set, List.getD_cons_succ]
    | succ n =>
      cases j with
      | zero => simp [List.set, List.getD_cons_zero]
      | succ m =>
        simp only [List.set, List.getD_cons_succ]
        exact ih n m (fun hnm => h (by rw [hnm]))

theorem getD_splice_lt {α : Type} (l : List α) (i k : Nat) (d : α)
    (h : k < i) : (l.take i ++ l.drop (i + 1)).getD k d = l.getD k d := by
  induction l generalizing i k with
  | nil => simp
  | cons a t ih =>
    cases i with
    | zero => omega
    | succ n =>
      cases k with
      | zero => simp [List.getD_cons_zero]
      | succ m =>
        simp only [List.take, List.drop, List.cons_append, List.getD_cons_succ]
        exact ih n m (by omega)

theorem getD_splice_ge {α : Type} (l : List α) (i k : Nat) (d : α)
    (h : i ≤ k) : (l.take i ++ l.drop (i + 1)).getD k d = l.getD (k + 1) d := by
  induction l generalizing i k with
  | nil => simp
  | cons a t ih =>
    cases i with
    | zero =>
      simp [List.getD_cons_succ]
    | succ n =>
      cases k with
      | zero => omega
      | succ m =>
        simp only [List.take, List.drop, List.cons_append, List.getD_cons_succ]
        exact ih n m (by omega)

/-! ## Claim C3: RemoveComponent -/

/-- C3 counterexample: in a two-entity world with names "a", "b",
RemoveComponent(0, NAME) shrinks the name array from 2 to 1 and shifts
entity 1's name into slot 0, so the claim that no component array changes
length and no entry is removed or shifted is false. -/
theorem removeComponent_splices_names_cx :
    (w2.RemoveComponent 0 NAME).cNames.length = 1 ∧
    w2.cNames.length = 2 ∧
    (w2.RemoveComponent 0 NAME).cNames.getD 1 "" ≠ w2.cNames.getD 1 "" ∧
    (w2.RemoveComponent 0 NAME).cNames.getD 0 "" = "b" := by
  refine ⟨rfl, rfl, ?_, rfl⟩
  decide

/-- C3 (amended): RemoveComponent(id, bit) AND-NOTs the bit out of the
target entity's presence mask, leaving the mask array's length and every
other entity's mask unchanged; for bits other than NAME the name array is
untouched, but for bit = NAME it splices the target's entry out of the
name array, shrinking it by one and shifting every later entity's name
down one index. -/
theorem removeComponent_effect (w : World) (eid cid : Nat)
    (h : eid < w.cFlags.length) :
    (w.RemoveComponent eid cid).cFlags.length = w.cFlags.length ∧
    (w.RemoveComponent eid cid).cFlags.getD eid 0 =
      andNot (w.cFlags.getD eid 0) cid ∧
    (∀ j, j ≠ eid →
      (w.RemoveComponent eid cid).cFlags.getD j 0 = w.cFlags.getD j 0) ∧
    (cid ≠ NAME → (w.RemoveComponent eid cid).cNames = w.cNames) ∧
    (cid = NAME → eid < w.cNames.length →
      (w.RemoveComponent eid cid).cNames.length + 1 = w.cNames.length ∧
      (∀ k, k < eid →
        (w.RemoveComponent eid cid).cNames.getD k "" = w.cNames.getD k "") ∧
      (∀ k, eid ≤ k →
        (w.RemoveComponent eid cid).cNames.getD k "" =
          w.cNames.getD (k + 1) "")) := by
  refine ⟨?_, ?_, ?_, ?_, ?_⟩
  · simp [World.RemoveComponent]
  · simp only [World.RemoveComponent]
    exact getD_set_self _ _ _ _ h
  · intro j hj
    simp only [World.RemoveComponent]
    exact getD_set_ne _ _ _ _ _ (fun he => hj he.symm)
  · intro hne
    simp [World.RemoveComponent, if_neg hne]
  · intro hcid hlen
    have hne : ¬ (w.cNames.length = eid) := by omega
    refine ⟨?_, ?_, ?_⟩
    · simp only [World.RemoveComponent, if_pos hcid, if_neg hne]
      simp [List.length_take, List.length_drop]
      omega
    · intro k hk
      simp only [World.RemoveComponent, if_pos hcid, if_neg hne]
      exact getD_splice_lt _ _ _ _ hk
    · intro k hk
      simp only [World.RemoveComponent, if_pos hcid, if_neg hne]
      exact getD_splice_ge _ _ _ _ hk

/-- C3 witness: the amended theorem at the concrete two-entity world,
eid = 0, cid = NAME. -/
theorem removeComponent_effect_witness :
    0 < w2.cFlags.length ∧
    ((w2.RemoveComponent 0 NAME).cFlags.length = w2.cFlags.length ∧
     (w2.RemoveComponent 0 NAME).cFlags.getD 0 0 =
       andNot (w2.cFlags.getD 0 0) NAME ∧
     (∀ j, j ≠ 0 →
       (w2.RemoveComponent 0 NAME).cFlags.getD j 0 = w2.cFlags.getD j 0) ∧
     (NAME ≠ NAME → (w2.RemoveComponent 0 NAME).cNames = w2.cNames) ∧
     (NAME = NAME → 0 < w2.cNames.length →
       (w2.RemoveComponent 0 NAME).cNames.length + 1 = w2.cNames.length ∧
       (∀ k, k < 0 →
         (w2.RemoveComponent 0 NAME).cNames.getD k "" = w2.cNames.getD k "") ∧
       (∀ k, 0 ≤ k →
         (w2.RemoveComponent 0 NAME).cNames.getD k "" =
           w2.cNames.getD (k + 1) ""))) :=
  ⟨by decide, removeComponent_effect w2 0 NAME (by decide)⟩

/-! ## Claim C4: FindAllEntitiesByComponentType -/

/-- C4: the scan tests mask & (2^cid - 1) instead of mask & cid, so on the
reachable world with one entity whose mask is NAME = 2, querying the
POSITION bit (4) returns [0] although the entity's mask does not have the
POSITION bit set. -/
theorem findAllEntities_wrong_mask_at_input :
    w1.FindAllEntitiesByComponentType POSITION = [0] ∧
    w1.cFlags.getD 0 0 &&& POSITION = 0 ∧
    w1.cFlags = [NAME] := by
  refine ⟨by decide, by decide, by decide⟩

/-! ## Claim C5: read loop behaviour on socket read error -/

/-- C5: on a socket read error the read loop body leaves the server state
unchanged — in particular the connection stays bound to its slot — and
the loop continues (the boolean is true), instead of unbinding the slot
and exiting. -/
theorem readLoop_continues_on_error :
    ∀ (s : ServerState) (slot : Nat),
      readLoopStep s slot ReadEvent.readErr = (s, true) ∧
      (readLoopStep s slot ReadEvent.readErr).1.connections = s.connections :=
  fun s slot => ⟨rfl, rfl⟩

/-! ## Claim C2: ValidateAndApplyState -/

/-- C2 counterexample: on a reachable one-player state, the proposal
(1, 2, 0) is accepted (ValidateAndApplyState returns no error) yet slot
0's PlayerState stays the zero value, so accepted proposals are not
written to the slot. -/
theorem validateAndApplyState_accepts_without_applying_cx :
    (ValidateAndApplyState joinedState { x := 1, y := 2, state := 0 } 0).2 = none ∧
    (readLoopStep joinedState 0
      (ReadEvent.proposal { x := 1, y := 2, state := 0 })).1.playerStates =
      [PlayerState.zero] ∧
    PlayerState.zero ≠ { x := 1, y := 2, state := 0 } := by
  refine ⟨rfl, rfl, by decide⟩

/-- C2 (amended): every successfully decoded proposal is routed to
ValidateAndApplyState, and the reference ValidateAndApplyState accepts
every proposal but leaves every player slot's PlayerState (and the whole
server state) unchanged: accepted proposals are never applied. -/
theorem validateAndApplyState_always_accepts_never_applies :
    ∀ (s : ServerState) (p : PlayerState) (i : Nat),
      ValidateAndApplyState s p i = (s, none) ∧
      readLoopStep s i (ReadEvent.proposal p) =
        ((ValidateAndApplyState s p i).1, true) ∧
      (readLoopStep s i (ReadEvent.proposal p)).1.playerStates =
        s.playerStates :=
  fun s p i => ⟨rfl, rfl, rfl⟩

/-! ## Claim C7: JoinGame with an invalid game id -/

/-- C7: a parsed JoinGame request whose gameid is negative or at least the
current game count is answered with status 400 and the "Invalid GameID"
error, the token cookie is not set, and the server state (sessions,
connections, player states, game arrays, every Players list) is returned
exactly unchanged. -/
theorem joinGame_invalid_id_rejected (s : ServerState) (u tok : String)
    (gid : Int)
    (hinv : gid < 0 ∨ (s.gameStates.length : Int) ≤ gid) :
    JoinGame s "POST" (JoinBody.ok { Username := u, GameID := gid }) tok =
      (s, 400, { Token := "", Error := "Invalid GameID" }, none) := by
  have hcond : gid > (s.gameStates.length : Int) - 1 ∨ gid < 0 := by omega
  simp only [JoinGame]
  rw [if_neg (by decide : ¬ (("POST" : String) = "OPTIONS"))]
  rw [if_pos hcond]

/-- C7 witness: the theorem at a fresh server (0 games) and gameid 0. -/
theorem joinGame_invalid_id_rejected_witness :
    ((0 : Int) < 0 ∨ ((ServerState.new.gameStates.length : Int) ≤ 0)) ∧
    JoinGame ServerState.new "POST"
      (JoinBody.ok { Username := "bob", GameID := 0 }) "T" =
      (ServerState.new, 400, { Token := "", Error := "Invalid GameID" },
       none) :=
  ⟨Or.inr (by decide),
   joinGame_invalid_id_rejected ServerState.new "bob" "T" 0
     (Or.inr (by decide))⟩

/-! ## Claim C8: CreateGame on malformed JSON -/

/-- C8: a POST to /game/create whose body fails to unmarshal is answered
with status 500 (an internal-server-error status, not a 4xx) carrying the
plain-text message produced by marshalBodyToRequest, contradicting the
claim that request-validation failures are reported as 4xx with a JSON
error body. -/
theorem createGame_bad_json_500 :
    marshalBodyToRequest false "POST" true false =
      some "Bad request; Improper JSON." ∧
    CreateGame ServerState.new "POST" false true false =
      (ServerState.new, 500, "Bad request; Improper JSON.") ∧
    ¬ (400 ≤ 500 ∧ 500 < 500) :=
  ⟨rfl, rfl, by omega⟩

/-! ## Claim C9: PlayerCondition constants and fresh players -/

/-- C9: ALIVE, DOWN, DEAD are the bit flags 1, 2, 4; the zero-value
PlayerState allocated for a freshly joined player has condition 0, which
is none of them; and the first broadcast frame pushed for such a fresh
player carries that condition-0 state. -/
theorem playerCondition_flags_and_fresh_zero :
    ALIVE = 1 ∧ DOWN = 2 ∧ DEAD = 4 ∧
    PlayerState.zero.state = 0 ∧
    joinedState.playerStates = [PlayerState.zero] ∧
    PlayerState.zero.state ≠ ALIVE ∧
    PlayerState.zero.state ≠ DOWN ∧
    PlayerState.zero.state ≠ DEAD ∧
    sentTo (BeginUpdatePushTick freshBroadcastState (fun _ _ _ => true)) 0 =
      [Frame.player PlayerState.zero, Frame.game {}] := by
  refine ⟨rfl, rfl, rfl, rfl, rfl, by decide, by decide, by decide, rfl⟩

/-! ## Claim C10: NewClient overwrites the slot's PlayerState -/

/-- C10: when NewClient finds the cookie token mapped to slot id and the
upgrade succeeds, it binds the connection at id and also overwrites
playerStates[id] with the zero PlayerState, discarding whatever was
stored there; every other connection and player slot, the session map and
both game arrays are unchanged. -/
theorem newClient_resets_player_state (s : ServerState) (tok : String)
    (id : Nat)
    (hfind : findSession s.sessions tok = some id)
    (hid : id < s.playerStates.length)
    (hidc : id < s.connections.length) :
    (NewClient s (some tok) true).2 = ConnectOutcome.bound id ∧
    (NewClient s (some tok) true).1.playerStates =
      s.playerStates.set id PlayerState.zero ∧
    (NewClient s (some tok) true).1.playerStates.getD id PlayerState.zero =
      PlayerState.zero ∧
    (NewClient s (some tok) true).1.connections.getD id false = true ∧
    (∀ j, j ≠ id →
      (NewClient s (some tok) true).1.playerStates.getD j PlayerState.zero =
        s.playerStates.getD j PlayerState.zero) ∧
    (∀ j, j ≠ id →
      (NewClient s (some tok) true).1.connections.getD j false =
        s.connections.getD j false) ∧
    (NewClient s (some tok) true).1.sessions = s.sessions ∧
    (NewClient s (some tok) true).1.gameStates = s.gameStates ∧
    (NewClient s (some tok) true).1.gameModes = s.gameModes := by
  have hN : NewClient s (some tok) true =
      ({ s with connections := s.connections.set id true,
                playerStates := s.playerStates.set id PlayerState.zero },
       ConnectOutcome.bound id) := by
    simp [NewClient, hfind]
  rw [hN]
  refine ⟨rfl, rfl, getD_set_self _ _ _ _ hid, getD_set_self _ _ _ _ hidc,
    ?_, ?_, rfl, rfl, rfl⟩
  · intro j hj
    exact getD_set_ne _ _ _ _ _ (fun he => hj he.symm)
  · intro j hj
    exact getD_set_ne _ _ _ _ _ (fun he => hj he.symm)

/-- C10 witness: the theorem at the concrete state whose slot 0 holds the
non-zero PlayerState (3, 4, 1), also recording that the pre-state was not
zero. -/
theorem newClient_resets_player_state_witness :
    findSession sessionedState.sessions "t" = some 0 ∧
    0 < sessionedState.playerStates.length ∧
    0 < sessionedState.connections.length ∧
    sessionedState.playerStates.getD 0 PlayerState.zero ≠ PlayerState.zero ∧
    ((NewClient sessionedState (some "t") true).2 = ConnectOutcome.bound 0 ∧
     (NewClient sessionedState (some "t") true).1.playerStates =
       sessionedState.playerStates.set 0 PlayerState.zero ∧
     (NewClient sessionedState (some "t") true).1.playerStates.getD 0
       PlayerState.zero = PlayerState.zero ∧
     (NewClient sessionedState (some "t") true).1.connections.getD 0 false =
       true ∧
     (∀ j, j ≠ 0 →
       (NewClient sessionedState (some "t") true).1.playerStates.getD j
         PlayerState.zero = sessionedState.playerStates.getD j
           PlayerState.zero) ∧
     (∀ j, j ≠ 0 →
       (NewClient sessionedState (some "t") true).1.connections.getD j false =
         sessionedState.connections.getD j false) ∧
     (NewClient sessionedState (some "t") true).1.sessions =
       sessionedState.sessions ∧
     (NewClient sessionedState (some "t") true).1.gameStates =
       sessionedState.gameStates ∧
     (NewClient sessionedState (some "t") true).1.gameModes =
       sessionedState.gameModes) :=
  ⟨rfl, by decide, by decide, by decide,
   newClient_resets_player_state sessionedState "t" 0 rfl (by decide)
     (by decide)⟩

/-! ## Claim C1: the session map is never written -/

theorem runOp_sessions (s : ServerState) (op : Op) :
    (runOp s op).sessions = s.sessions := by
  cases op with
  | create m bn br jo =>
    simp only [runOp, CreateGame]
    split
    · rfl
    · split
      · rfl
      · rfl
  | join m b tok =>
    simp only [runOp, JoinGame]
    split
    · rfl
    · cases b with
      | readErr => rfl
      | badJSON => rfl
      | ok req =>
        simp only []
        split
        · rfl
        · split
          · rfl
          · rfl
  | connect c u =>
    cases c with
    | none => rfl
    | some tok =>
      simp only [runOp, NewClient]
      cases hfind : findSession s.sessions tok with
      | none => rfl
      | some id =>
        cases u with
        | true => rfl
        | false => rfl
  | read slot ev =>
    cases ev <;> rfl

theorem runOps_sessions :
    ∀ (ops : List Op) (s : ServerState),
      (runOps s ops).sessions = s.sessions
  | [], _ => rfl
  | op :: rest, s =>
    (runOps_sessions rest (runOp s op)).trans (runOp_sessions s op)

/-- C1: joinGame mints a token but never records it in the session map, so
from the fresh server, after any sequence of create/join/connect/read
operations the session map is still empty and every websocket connect is
refused with 403; in particular, after a concrete successful CreateGame
and JoinGame that set the SessionID cookie to "T", connecting with that
very cookie is refused instead of binding the player's slot. -/
theorem joinGame_token_never_recorded :
    (∀ ops : List Op, (runOps ServerState.new ops).sessions = []) ∧
    (∀ (ops : List Op) (tok : String) (up : Bool),
      (NewClient (runOps ServerState.new ops) (some tok) up).2 =
        ConnectOutcome.forbidden) ∧
    (JoinGame gameOneState "POST"
      (JoinBody.ok { Username := "bob", GameID := 0 }) "T").2.2.2 =
      some "T" ∧
    (NewClient joinedState (some "T") true).2 =
      ConnectOutcome.forbidden := by
  have hempty : ∀ ops : List Op,
      (runOps ServerState.new ops).sessions = [] :=
    fun ops => runOps_sessions ops ServerState.new
  refine ⟨hempty, ?_, rfl, rfl⟩
  intro ops tok up
  have hfind : findSession (runOps ServerState.new ops).sessions tok = none := by
    rw [hempty]
    rfl
  simp [NewClient, hfind]

/-! ## Claim C6: the broadcast tick -/

theorem sentTo_append (a b : List (Nat × Frame)) (q : Nat) :
    sentTo (a ++ b) q = sentTo a q ++ sentTo b q := by
  simp [sentTo]

theorem sentTo_pushToPlayer_ne (conns : List Bool)
    (pstates : List PlayerState) (gstates : List GameState) (ok : WriteOk)
    (i j q : Nat) (h : j ≠ q) :
    sentTo (pushToPlayer conns pstates gstates ok i j) q = [] := by
  unfold pushToPlayer
  split
  · rfl
  · split
    · rfl
    · split <;> simp [sentTo, h]

theorem sentTo_pushToPlayer_self (conns : List Bool)
    (pstates : List PlayerState) (gstates : List GameState) (ok : WriteOk)
    (i q : Nat) (hlive : conns.getD q false = true) :
    sentTo (pushToPlayer conns pstates gstates ok i q) q =
      visitFrames pstates gstates ok q i := by
  unfold pushToPlayer visitFrames
  rw [hlive]
  rw [if_neg (by decide : ¬ (true = false))]
  by_cases h0 : ok i q 0 = false
  · rw [if_pos h0, if_pos h0]
    rfl
  · rw [if_neg h0, if_neg h0]
    by_cases h1 : ok i q 1 = false
    · rw [if_pos h1, if_pos h1]
      simp [sentTo]
    · rw [if_neg h1, if_neg h1]
      simp [sentTo]

theorem sentTo_pushPlayers (conns : List Bool) (pstates : List PlayerState)
    (gstates : List GameState) (ok : WriteOk) (i q : Nat)
    (players : List Nat) (hlive : conns.getD q false = true) :
    sentTo (pushPlayers conns pstates gstates ok i players) q =
      (List.replicate (countOcc q players)
        (visitFrames pstates gstates ok q i)).flatten := by
  induction players with
  | nil => rfl
  | cons j rest ih =>
    rw [pushPlayers, sentTo_append]
    by_cases hjq : j = q
    · subst hjq
      rw [sentTo_pushToPlayer_self conns pstates gstates ok i j hlive]
      have hc : countOcc j (j :: rest) = countOcc j rest + 1 := by
        simp [countOcc, Nat.add_comm]
      rw [hc, List.replicate_succ, List.flatten_cons, ih]
    · rw [sentTo_pushToPlayer_ne conns pstates gstates ok i j q hjq]
      have hc : countOcc q (j :: rest) = countOcc q rest := by
        simp [countOcc, hjq]
      rw [List.nil_append, hc, ih]

theorem sentTo_pushGames (conns : List Bool) (pstates : List PlayerState)
    (gstates : List GameState) (ok : WriteOk) (q : Nat)
    (hlive : conns.getD q false = true) :
    ∀ (i : Nat) (gms : List GameMode),
      sentTo (pushGames conns pstates gstates ok i gms) q =
        expectedTo pstates gstates ok q i gms
  | _, [] => rfl
  | i, gm :: rest => by
    rw [pushGames, sentTo_append,
      sentTo_pushPlayers conns pstates gstates ok i q gm.Players hlive,
      expectedTo,
      sentTo_pushGames conns pstates gstates ok q hlive (i + 1) rest]

/-- C6: on a broadcast tick, what a slot q with a live connection receives
is exactly, game by game in order and once per occurrence of q in that
game's Players list, its own PlayerState frame followed by that game's
GameState frame — truncated after a failed write of its own — and this
is a function of q's own write outcomes only, so a write failure on any
other player's connection never removes a frame from q's delivery. -/
theorem broadcast_per_slot_delivery (s : ServerState) (ok : WriteOk)
    (q : Nat) (hlive : s.connections.getD q false = true) :
    sentTo (BeginUpdatePushTick s ok) q =
      expectedTo s.playerStates s.gameStates ok q 0 s.gameModes := by
  unfold BeginUpdatePushTick
  exact sentTo_pushGames s.connections s.playerStates s.gameStates ok q
    hlive 0 s.gameModes

/-- C6 witness: the theorem on the concrete two-player game under the
oracle that fails every write to slot 0: slot 1 still receives its two
frames in order while slot 0 receives nothing. -/
theorem broadcast_per_slot_delivery_witness :
    broadcastState.connections.getD 1 false = true ∧
    sentTo (BeginUpdatePushTick broadcastState failSlotZero) 1 =
      expectedTo broadcastState.playerStates broadcastState.gameStates
        failSlotZero 1 0 broadcastState.gameModes ∧
    sentTo (BeginUpdatePushTick broadcastState failSlotZero) 1 =
      [Frame.player { x := 7, y := 8, state := 2 }, Frame.game {}] ∧
    sentTo (BeginUpdatePushTick broadcastState failSlotZero) 0 = [] :=
  ⟨by decide,
   broadcast_per_slot_delivery broadcastState failSlotZero 1 (by decide),
   by decide, by decide⟩

end Submariner
